import Mathlib

/-!
Verification of the Spark data-lake ETL (`etl.py`).

The five table builders are embedded as pure functions over lists of
records.  Spark dataframes become Lean lists (row order is the standard
left-major nested-loop order for joins; claims are stated order-robustly
via counts and membership).  The engine-provided
`monotonically_increasing_id` is modelled by an arbitrary strictly
monotone generator `gen : Nat → Nat` applied to the row index.  The
pandas timestamp decomposition (`pd.to_datetime(ts, unit='ms')` and its
`hour/day/weekofyear/month/year/weekday()` accessors) is embedded by the
standard proleptic-Gregorian civil-from-days algorithm together with the
ISO-8601 week numbering that `weekofyear` implements.
-/

/-- A raw log (event) record, with the fields `etl.py` reads from the
log JSON. -/
structure LogRecord where
  userId : String
  firstName : String
  lastName : String
  gender : String
  level : String
  page : String
  song : String
  artist : String
  location : String
  userAgent : String
  ts : Nat
  sessionId : Nat
  deriving DecidableEq, Repr

/-- A raw song record, with the fields `etl.py` reads from the song
JSON.  Payload-only fields (duration, coordinates) are kept as opaque
strings; no claim computes on them. -/
structure SongRecord where
  song_id : String
  title : String
  artist_id : String
  artist_name : String
  artist_location : String
  artist_latitude : String
  artist_longitude : String
  duration : String
  year : Nat
  deriving DecidableEq, Repr

/-- A row of the songs dimension table (`create_songs_table` select). -/
structure SongRow where
  song_id : String
  title : String
  artist_id : String
  year : Nat
  duration : String
  deriving DecidableEq, Repr

/-- A row of the artists dimension table (`create_artists_table`
selectExpr, including the source's `lattitude` spelling). -/
structure ArtistRow where
  artist_id : String
  name : String
  location : String
  lattitude : String
  longitude : String
  deriving DecidableEq, Repr

/-- A row of the users dimension table (final select of
`create_users_table`). -/
structure UserRow where
  user_id : String
  first_name : String
  last_name : String
  gender : String
  level : String
  deriving DecidableEq, Repr

/-- A row of the time dimension table.  Every field is a string: the
UDF returns a `MapType(StringType(), StringType())` and the selectExpr
extracts the map values unchanged. -/
structure TimeRow where
  start_time : String
  hour : String
  day : String
  week : String
  month : String
  year : String
  weekday : String
  deriving DecidableEq, Repr

/-- A row of the songplays fact table (`create_song_plays_table`
selectExpr; `start_time` is the raw `ts`). -/
structure SongPlayRow where
  songplay_id : Nat
  start_time : Nat
  user_id : String
  level : String
  song_id : String
  artist_id : String
  session_id : Nat
  location : String
  user_agent : String
  deriving DecidableEq, Repr

/- ### Songs and artists builders -/

/-- The builder `create_songs_table`: plain select of five fields, one output row
per input song record. -/
def create_songs_table (songs : List SongRecord) : List SongRow :=
  songs.map (fun s =>
    { song_id := s.song_id, title := s.title, artist_id := s.artist_id,
      year := s.year, duration := s.duration })

/-- The builder `create_artists_table`: selectExpr rename, one output row per input
song record, no deduplication. -/
def create_artists_table (songs : List SongRecord) : List ArtistRow :=
  songs.map (fun s =>
    { artist_id := s.artist_id, name := s.artist_name,
      location := s.artist_location, lattitude := s.artist_latitude,
      longitude := s.artist_longitude })

/- ### Users builder -/

/-- The projected stage of `create_users_table` (`users_table_df`). -/
structure UserStage where
  user_id : String
  first_name : String
  last_name : String
  gender : String
  level : String
  ts : Nat
  deriving DecidableEq, Repr

/-- The per-record projection of the users stage. -/
def stageOf (e : LogRecord) : UserStage :=
  { user_id := e.userId, first_name := e.firstName, last_name := e.lastName,
    gender := e.gender, level := e.level, ts := e.ts }

/-- The `selectExpr` projection producing `users_table_df`. -/
def usersTableDf (evs : List LogRecord) : List UserStage :=
  evs.map (fun e =>
    { user_id := e.userId, first_name := e.firstName, last_name := e.lastName,
      gender := e.gender, level := e.level, ts := e.ts })

/-- Maximum `ts` over the rows of a given `user_id` (the `max("ts")`
aggregate of the groupBy). -/
def maxTsOf (u : String) (rows : List UserStage) : Nat :=
  ((rows.filter (fun r => r.user_id == u)).map (fun r => r.ts)).foldr max 0

/-- The aggregate `users_max_ts_df`: one `(userId, max_ts)` row per distinct
`user_id` of the stage. -/
def usersMaxTsDf (rows : List UserStage) : List (String × Nat) :=
  ((rows.map (fun r => r.user_id)).dedup).map (fun u => (u, maxTsOf u rows))

/-- The join `users_table_join`: inner join of the aggregate against the stage on
`userId = user_id ∧ max_ts = ts`. -/
def usersTableJoin (rows : List UserStage) : List ((String × Nat) × UserStage) :=
  (usersMaxTsDf rows).flatMap (fun g =>
    (rows.filter (fun r => r.user_id == g.1 && r.ts == g.2)).map (fun r => (g, r)))

/-- The builder `create_users_table`: final select dropping `ts`. -/
def create_users_table (evs : List LogRecord) : List UserRow :=
  (usersTableJoin (usersTableDf evs)).map (fun p =>
    { user_id := p.2.user_id, first_name := p.2.first_name,
      last_name := p.2.last_name, gender := p.2.gender, level := p.2.level })

/- ### Time decomposition (pandas `to_datetime(ts, unit='ms')`) -/

/-- Gregorian leap-year test. -/
def isLeapYear (y : Nat) : Bool :=
  (y % 4 == 0 && y % 100 != 0) || y % 400 == 0

/-- Civil date (year, month, day) of a day count since 1970-01-01, by
the standard era-based algorithm; this is the calendar arithmetic that
`pd.to_datetime(·, unit='ms')` performs. -/
def civilFromDays (z : Nat) : Nat × Nat × Nat :=
  let zs := z + 719468
  let era := zs / 146097
  let doe := zs % 146097
  let yoe := (doe - doe / 1460 + doe / 36524 - doe / 146096) / 365
  let y := yoe + era * 400
  let doy := doe - (365 * yoe + yoe / 4 - yoe / 100)
  let mp := (5 * doy + 2) / 153
  let d := doy - (153 * mp + 2) / 5 + 1
  let m := if mp < 10 then mp + 3 else mp - 9
  (if m ≤ 2 then y + 1 else y, m, d)

/-- The accessor `Timestamp.weekday()`: 0 = Monday … 6 = Sunday; day 0
(1970-01-01) was a Thursday, i.e. 3. -/
def weekdayFromDays (z : Nat) : Nat := (z + 3) % 7

/-- Days in the year strictly before month `m` (1-based). -/
def daysBeforeMonth (leap : Bool) (m : Nat) : Nat :=
  (match m with
   | 1 => 0 | 2 => 31 | 3 => 59 | 4 => 90 | 5 => 120 | 6 => 151
   | 7 => 181 | 8 => 212 | 9 => 243 | 10 => 273 | 11 => 304 | _ => 334)
  + (if leap && decide (3 ≤ m) then 1 else 0)

/-- Number of ISO-8601 weeks in year `y` (52 or 53). -/
def isoWeekCount (y : Nat) : Nat :=
  let p := fun (a : Nat) => (a + a / 4 - a / 100 + a / 400) % 7
  if p y == 4 || p (y - 1) == 3 then 53 else 52

/-- ISO-8601 week number from the year, the 1-based day of year and the
1-based (Monday = 1) weekday; this is `Timestamp.weekofyear`. -/
def isoWeekOfYear (y doy1 wd1 : Nat) : Nat :=
  let w := (10 + doy1 - wd1) / 7
  if w = 0 then isoWeekCount (y - 1)
  else if isoWeekCount y < w then 1
  else w

/-- All calendar components of an epoch-millisecond timestamp: the
embedding of the `pd.Timestamp` accessors used by the UDF. -/
structure TsParts where
  year : Nat
  month : Nat
  day : Nat
  hour : Nat
  minute : Nat
  second : Nat
  millis : Nat
  weekOfYear : Nat
  weekday : Nat
  deriving DecidableEq, Repr

/-- Decompose an epoch-millisecond timestamp into its UTC calendar
components. -/
def tsParts (ts : Nat) : TsParts :=
  let days := ts / 86400000
  let rem := ts % 86400000
  let c := civilFromDays days
  let wd := weekdayFromDays days
  { year := c.1, month := c.2.1, day := c.2.2,
    hour := rem / 3600000, minute := rem / 60000 % 60,
    second := rem / 1000 % 60, millis := rem % 1000,
    weekOfYear := isoWeekOfYear c.1 (daysBeforeMonth (isLeapYear c.1) c.2.1 + c.2.2) (wd + 1),
    weekday := wd }

/-- Modelled from the spec ("canonical calendar decomposition of T in
UTC"): the canonical Gregorian conversion from a civil (year, month,
day) back to a day count since 1970-01-01.  A decomposition is the
canonical one exactly when this inverse recovers the original epoch
day.  This is the spec-side definition used to state canonicity; it is
not part of the source. -/
def daysFromCivil (y m d : Nat) : Nat :=
  let ys := y - (if m ≤ 2 then 1 else 0)
  let era := ys / 400
  let yoe := ys % 400
  let mp := if 2 < m then m - 3 else m + 9
  let doy := (153 * mp + 2) / 5 + d - 1
  let doe := yoe * 365 + yoe / 4 - yoe / 100 + doy
  era * 146097 + doe - 719468

/-- Zero-pad a number to two digits. -/
def pad2 (n : Nat) : String :=
  if n < 10 then "0" ++ toString n else toString n

/-- Zero-pad a number to three digits. -/
def pad3 (n : Nat) : String :=
  if n < 10 then "00" ++ toString n
  else if n < 100 then "0" ++ toString n else toString n

/-- The human-readable timestamp string `str(dt)` of a millisecond
`pd.Timestamp` ("YYYY-MM-DD HH:MM:SS[.mmm]", the fraction omitted when
zero). -/
def startTimeStr (ts : Nat) : String :=
  let p := tsParts ts
  let base := toString p.year ++ "-" ++ pad2 p.month ++ "-" ++ pad2 p.day ++ " "
    ++ pad2 p.hour ++ ":" ++ pad2 p.minute ++ ":" ++ pad2 p.second
  if p.millis = 0 then base else base ++ "." ++ pad3 p.millis

/-- The UDF `extract_fields_from_ts`: a string-to-string map, every
value produced with `str(...)`. -/
def extract_fields_from_ts (ts : Nat) : List (String × String) :=
  [("start_time", startTimeStr ts),
   ("hour", toString (tsParts ts).hour),
   ("day", toString (tsParts ts).day),
   ("week", toString (tsParts ts).weekOfYear),
   ("month", toString (tsParts ts).month),
   ("year", toString (tsParts ts).year),
   ("weekday", toString (tsParts ts).weekday)]

/-- Spark map-column access `time_data['k']` on the UDF result. -/
def lookupField (m : List (String × String)) (k : String) : String :=
  (m.lookup k).getD ""

/-- The builder `create_time_table`: apply the UDF to each event's `ts` and select
the seven map entries; one row per input event, no deduplication. -/
def create_time_table (evs : List LogRecord) : List TimeRow :=
  evs.map (fun e =>
    let m := extract_fields_from_ts e.ts
    { start_time := lookupField m "start_time", hour := lookupField m "hour",
      day := lookupField m "day", week := lookupField m "week",
      month := lookupField m "month", year := lookupField m "year",
      weekday := lookupField m "weekday" })

/- ### Songplays (fact) builder -/

/-- The join `combined_df`: inner join of the log stream against the song stream
on `song = title ∧ artist = artist_name`, then the `page == "NextSong"`
filter, in the order the source applies them. -/
def combinedDf (evs : List LogRecord) (songs : List SongRecord) :
    List (LogRecord × SongRecord) :=
  (evs.flatMap (fun e =>
    (songs.filter (fun s => e.song == s.title && e.artist == s.artist_name)).map
      (fun s => (e, s)))).filter
    (fun p => p.1.page == "NextSong")

/-- The builder `create_song_plays_table`: attach `monotonically_increasing_id`
(modelled by `gen` applied to the row index) and select the fact
columns.  `location` is the song side's `artist_location`. -/
def create_song_plays_table (gen : Nat → Nat) (evs : List LogRecord)
    (songs : List SongRecord) : List SongPlayRow :=
  (combinedDf evs songs).enum.map (fun ip =>
    { songplay_id := gen ip.1, start_time := ip.2.1.ts,
      user_id := ip.2.1.userId, level := ip.2.1.level,
      song_id := ip.2.2.song_id, artist_id := ip.2.2.artist_id,
      session_id := ip.2.1.sessionId, location := ip.2.2.artist_location,
      user_agent := ip.2.1.userAgent })

/-- A songplay row with the surrogate key erased, for comparing runs
modulo `songplay_id`. -/
structure SongPlayData where
  start_time : Nat
  user_id : String
  level : String
  song_id : String
  artist_id : String
  session_id : Nat
  location : String
  user_agent : String
  deriving DecidableEq, Repr

/-- Project away the surrogate key of a songplay row. -/
def dropSongplayId (r : SongPlayRow) : SongPlayData :=
  { start_time := r.start_time, user_id := r.user_id, level := r.level,
    song_id := r.song_id, artist_id := r.artist_id,
    session_id := r.session_id, location := r.location,
    user_agent := r.user_agent }

/-- The entry point `main`: one batch run over the two input snapshots, producing the
five tables.  The id generator is the run's only non-deterministic
input. -/
def runPipeline (gen : Nat → Nat) (songs : List SongRecord)
    (evs : List LogRecord) :
    List SongRow × List ArtistRow × List UserRow × List TimeRow × List SongPlayRow :=
  (create_songs_table songs, create_artists_table songs,
   create_users_table evs, create_time_table evs,
   create_song_plays_table gen evs songs)

/- ### Concrete records, used to instantiate the theorems -/

/-- The song record of the spec's §8 scenario. -/
def cSong1 : SongRecord :=
  { song_id := "S1", title := "X", artist_id := "A1", artist_name := "Band",
    artist_location := "SongCity", artist_latitude := "1.0",
    artist_longitude := "2.0", duration := "200.0", year := 2000 }

/-- A second song record sharing `artist_id` with `cSong1`. -/
def cSong2 : SongRecord :=
  { song_id := "S2", title := "Z", artist_id := "A1", artist_name := "Band",
    artist_location := "SongCity", artist_latitude := "1.0",
    artist_longitude := "2.0", duration := "100.0", year := 2001 }

/-- The event record of the spec's §8 scenario (matches `cSong1`). -/
def eNext : LogRecord :=
  { userId := "7", firstName := "F", lastName := "L", gender := "M",
    level := "free", page := "NextSong", song := "X", artist := "Band",
    location := "EventCity", userAgent := "UA", ts := 1000, sessionId := 1 }

/-- An event with `page ≠ "NextSong"` that would otherwise match
`cSong1`. -/
def eHome : LogRecord :=
  { userId := "7", firstName := "F", lastName := "L", gender := "M",
    level := "free", page := "Home", song := "X", artist := "Band",
    location := "EventCity", userAgent := "UA", ts := 1500, sessionId := 1 }

/-- A `NextSong` event whose `song` matches no song title. -/
def eUnmatched : LogRecord :=
  { userId := "9", firstName := "G", lastName := "K", gender := "F",
    level := "paid", page := "NextSong", song := "Nope", artist := "Band",
    location := "Elsewhere", userAgent := "UA2", ts := 2000, sessionId := 2 }

/-- First of two events that tie on `(userId, ts)`. -/
def eTieA : LogRecord :=
  { userId := "1", firstName := "Alice", lastName := "A", gender := "F",
    level := "free", page := "NextSong", song := "X", artist := "Band",
    location := "C1", userAgent := "UA", ts := 5, sessionId := 3 }

/-- Second of two events that tie on `(userId, ts)` with different
profile fields. -/
def eTieB : LogRecord :=
  { userId := "1", firstName := "Bob", lastName := "B", gender := "M",
    level := "paid", page := "Home", song := "Y", artist := "Other",
    location := "C2", userAgent := "UA", ts := 5, sessionId := 4 }

/-- An earlier event for user "7", superseded by `eHome` (`ts` 1500). -/
def eOld7 : LogRecord :=
  { userId := "7", firstName := "Old", lastName := "Name", gender := "M",
    level := "paid", page := "NextSong", song := "X", artist := "Band",
    location := "EventCity", userAgent := "UA", ts := 900, sessionId := 1 }

/- ### Structural facts about the fact-table join -/

/-- Every joined-and-filtered pair comes from both inputs, satisfies
the join condition, and is a `NextSong` event. -/
lemma mem_of_mem_combinedDf {evs : List LogRecord} {songs : List SongRecord}
    {p : LogRecord × SongRecord} (hp : p ∈ combinedDf evs songs) :
    p.1 ∈ evs ∧ p.2 ∈ songs ∧ p.1.song = p.2.title ∧
      p.1.artist = p.2.artist_name ∧ p.1.page = "NextSong" := by
  obtain ⟨hj, hpage⟩ := List.mem_filter.mp hp
  obtain ⟨e, he, hb⟩ := List.mem_flatMap.mp hj
  obtain ⟨s, hs, hes⟩ := List.mem_map.mp hb
  obtain ⟨hsmem, hcond⟩ := List.mem_filter.mp hs
  subst hes
  simp only [Bool.and_eq_true, beq_iff_eq] at hcond hpage
  exact ⟨he, hsmem, hcond.1, hcond.2, hpage⟩

/-- C2: for every input event record whose `page` field is not
`"NextSong"`, no pair of the joined-and-filtered table — hence no
songplay row, each of which is the image of such a pair — originates
from that event. -/
theorem songplays_only_nextsong (evs : List LogRecord)
    (songs : List SongRecord) (e : LogRecord) (_he : e ∈ evs)
    (hpage : e.page ≠ "NextSong") :
    ∀ p ∈ combinedDf evs songs, p.1 ≠ e := by
  intro p hp hpe
  exact hpage (hpe ▸ (mem_of_mem_combinedDf hp).2.2.2.2)

/-- C2 witness: with `eHome` (page "Home") and `eNext` both in the
input, the single produced pair originates from `eNext`, not from
`eHome`. -/
theorem songplays_only_nextsong_witness :
    eHome ∈ [eNext, eHome] ∧ eHome.page ≠ "NextSong" ∧
      (eNext, cSong1) ∈ combinedDf [eNext, eHome] [cSong1] ∧
      (eNext, cSong1).1 ≠ eHome :=
  ⟨by decide, by decide, by decide,
   songplays_only_nextsong [eNext, eHome] [cSong1] eHome (by decide)
     (by decide) (eNext, cSong1) (by decide)⟩

/-- C4: an event whose `song`/`artist` pair matches no song record
contributes no pair to the joined table (it is silently dropped; every
operation involved is total, so no error can arise). -/
theorem unmatched_event_dropped (evs : List LogRecord)
    (songs : List SongRecord) (e : LogRecord)
    (hnomatch : ∀ s ∈ songs, e.song ≠ s.title ∨ e.artist ≠ s.artist_name) :
    ∀ p ∈ combinedDf evs songs, p.1 ≠ e := by
  intro p hp hpe
  obtain ⟨-, hs, htitle, hartist, -⟩ := mem_of_mem_combinedDf hp
  rcases hnomatch p.2 hs with h | h
  · exact h (hpe ▸ htitle)
  · exact h (hpe ▸ hartist)

/-- C4 witness: `eUnmatched` matches no song; the only produced pair
originates from `eNext`. -/
theorem unmatched_event_dropped_witness :
    (∀ s ∈ [cSong1], eUnmatched.song ≠ s.title ∨
        eUnmatched.artist ≠ s.artist_name) ∧
      (eNext, cSong1) ∈ combinedDf [eNext, eUnmatched] [cSong1] ∧
      (eNext, cSong1).1 ≠ eUnmatched :=
  ⟨by decide, by decide,
   unmatched_event_dropped [eNext, eUnmatched] [cSong1] eUnmatched
     (by decide) (eNext, cSong1) (by decide)⟩

/-- Every songplay row is the projection of some joined pair, keyed by
its index. -/
lemma mem_create_song_plays_table {gen : Nat → Nat} {evs : List LogRecord}
    {songs : List SongRecord} {row : SongPlayRow}
    (hrow : row ∈ create_song_plays_table gen evs songs) :
    ∃ p ∈ combinedDf evs songs,
      row.song_id = p.2.song_id ∧ row.artist_id = p.2.artist_id ∧
      row.location = p.2.artist_location := by
  obtain ⟨ip, hip, heq⟩ := List.mem_map.mp hrow
  have hget := List.mem_enum_iff_getElem?.mp hip
  have hmem : ip.2 ∈ combinedDf evs songs := List.getElem?_mem hget
  exact ⟨ip.2, hmem, by rw [← heq], by rw [← heq], by rw [← heq]⟩

/-- C3: every songplay row references a song row with its `song_id` and
an artist row with its `artist_id`, both built from the same song
input. -/
theorem songplays_ref_integrity (gen : Nat → Nat) (evs : List LogRecord)
    (songs : List SongRecord) :
    ∀ row ∈ create_song_plays_table gen evs songs,
      (∃ srow ∈ create_songs_table songs, srow.song_id = row.song_id) ∧
      (∃ arow ∈ create_artists_table songs, arow.artist_id = row.artist_id) := by
  intro row hrow
  obtain ⟨p, hp, hsid, haid, -⟩ := mem_create_song_plays_table hrow
  obtain ⟨-, hsongs, -⟩ := mem_of_mem_combinedDf hp
  constructor
  · exact ⟨_, List.mem_map_of_mem _ hsongs, hsid.symm⟩
  · exact ⟨_, List.mem_map_of_mem _ hsongs, haid.symm⟩

/-- The songplay row the §8 scenario produces. -/
def cPlayRow1 : SongPlayRow :=
  { songplay_id := 0, start_time := 1000, user_id := "7", level := "free",
    song_id := "S1", artist_id := "A1", session_id := 1,
    location := "SongCity", user_agent := "UA" }

/-- C3 witness: the spec's §8 scenario row references `"S1"` in the
songs table and `"A1"` in the artists table. -/
theorem songplays_ref_integrity_witness :
    cPlayRow1 ∈ create_song_plays_table (fun n => n) [eNext] [cSong1] ∧
      ((∃ srow ∈ create_songs_table [cSong1], srow.song_id = cPlayRow1.song_id) ∧
        (∃ arow ∈ create_artists_table [cSong1],
          arow.artist_id = cPlayRow1.artist_id)) :=
  ⟨by decide,
   songplays_ref_integrity (fun n => n) [eNext] [cSong1] cPlayRow1 (by decide)⟩

/-- C7: the artists table is an index-by-index field rename of the song
input — same length, the `i`-th row the projection of the `i`-th song
record — and duplicate `artist_id`s are kept (two records sharing
`"A1"` give two rows). -/
theorem artists_table_passthrough (songs : List SongRecord) (i : Nat) :
    (create_artists_table songs).length = songs.length ∧
      (create_artists_table songs)[i]? = (songs[i]?).map (fun s =>
        ({ artist_id := s.artist_id, name := s.artist_name,
           location := s.artist_location, lattitude := s.artist_latitude,
           longitude := s.artist_longitude } : ArtistRow)) ∧
      (create_artists_table [cSong1, cSong2]).countP
        (fun r => r.artist_id == "A1") = 2 := by
  refine ⟨by simp [create_artists_table], ?_, by decide⟩
  simp [create_artists_table]

/-- The surrogate keys of a run are the generator applied to
`0, 1, 2, …`. -/
lemma songplay_ids_eq (gen : Nat → Nat) (evs : List LogRecord)
    (songs : List SongRecord) :
    (create_song_plays_table gen evs songs).map (fun r => r.songplay_id)
      = (List.range (combinedDf evs songs).length).map gen := by
  have h1 : (create_song_plays_table gen evs songs).map (fun r => r.songplay_id)
      = (combinedDf evs songs).enum.map (fun ip => gen ip.1) := by
    simp only [create_song_plays_table, List.map_map]; rfl
  rw [h1, ← List.enum_map_fst (combinedDf evs songs), List.map_map]
  rfl

/-- With a strictly monotone generator the surrogate keys are strictly
increasing along the output. -/
lemma songplay_ids_pairwise (gen : Nat → Nat) (hg : StrictMono gen)
    (evs : List LogRecord) (songs : List SongRecord) :
    ((create_song_plays_table gen evs songs).map
      (fun r => r.songplay_id)).Pairwise (· < ·) := by
  rw [songplay_ids_eq]
  exact (List.pairwise_lt_range _).map gen (fun a b h => hg h)

/-- C8: within a single run a strictly monotone generator yields
strictly increasing — in particular pairwise distinct — `songplay_id`
values. -/
theorem songplay_id_run_unique (gen : Nat → Nat) (evs : List LogRecord)
    (songs : List SongRecord) (hg : StrictMono gen) :
    ((create_song_plays_table gen evs songs).map
        (fun r => r.songplay_id)).Pairwise (· < ·) ∧
      ((create_song_plays_table gen evs songs).map
        (fun r => r.songplay_id)).Nodup :=
  ⟨songplay_ids_pairwise gen hg evs songs,
   (songplay_ids_pairwise gen hg evs songs).imp (fun h => Nat.ne_of_lt h)⟩

/-- C8 witness: the identity generator on a two-row run. -/
theorem songplay_id_run_unique_witness :
    ((create_song_plays_table (fun n => n) [eNext, eOld7] [cSong1]).map
        (fun r => r.songplay_id)).Pairwise (· < ·) ∧
      ((create_song_plays_table (fun n => n) [eNext, eOld7] [cSong1]).map
        (fun r => r.songplay_id)).Nodup :=
  songplay_id_run_unique (fun n => n) [eNext, eOld7] [cSong1]
    (fun _ _ h => h)

/-- C9: the `location` of the `i`-th songplay row is the
`artist_location` of the `i`-th joined pair's song record; on the
concrete scenario it is the song's `"SongCity"`, not the event's
`"EventCity"`. -/
theorem songplay_location_from_song (gen : Nat → Nat)
    (evs : List LogRecord) (songs : List SongRecord) (i : Nat) :
    ((create_song_plays_table gen evs songs)[i]?).map (fun r => r.location)
        = ((combinedDf evs songs)[i]?).map (fun p => p.2.artist_location) ∧
      (create_song_plays_table (fun n => n) [eNext] [cSong1]).map
        (fun r => r.location) = ["SongCity"] ∧
      eNext.location ≠ "SongCity" := by
  refine ⟨?_, by decide, by decide⟩
  simp only [create_song_plays_table, List.getElem?_map, List.getElem?_enum,
    Option.map_map]
  cases (combinedDf evs songs)[i]? <;> rfl

/-- C6: with the id generator as the run's only non-deterministic
input, two runs on the same snapshots agree on the four dimension
tables and on every songplay column except `songplay_id`; a strictly
monotone generator makes the ids of a run pairwise distinct. -/
theorem pipeline_deterministic_mod_id (songs : List SongRecord)
    (evs : List LogRecord) (gen1 gen2 : Nat → Nat) :
    (runPipeline gen1 songs evs).1 = (runPipeline gen2 songs evs).1 ∧
      (runPipeline gen1 songs evs).2.1 = (runPipeline gen2 songs evs).2.1 ∧
      (runPipeline gen1 songs evs).2.2.1 = (runPipeline gen2 songs evs).2.2.1 ∧
      (runPipeline gen1 songs evs).2.2.2.1
        = (runPipeline gen2 songs evs).2.2.2.1 ∧
      ((runPipeline gen1 songs evs).2.2.2.2).map dropSongplayId
        = ((runPipeline gen2 songs evs).2.2.2.2).map dropSongplayId ∧
      (StrictMono gen1 →
        (((runPipeline gen1 songs evs).2.2.2.2).map
          (fun r => r.songplay_id)).Nodup) := by
  refine ⟨rfl, rfl, rfl, rfl, ?_, fun hg => ?_⟩
  · show (create_song_plays_table gen1 evs songs).map dropSongplayId
      = (create_song_plays_table gen2 evs songs).map dropSongplayId
    simp only [create_song_plays_table, List.map_map]
    rfl
  · exact (songplay_ids_pairwise gen1 hg evs songs).imp (fun h => Nat.ne_of_lt h)

/-- C6 witness: two different generators on the scenario inputs. -/
theorem pipeline_deterministic_mod_id_witness :
    ((runPipeline (fun n => n) [cSong1] [eNext]).2.2.2.2).map dropSongplayId
        = ((runPipeline (fun n => n + 7) [cSong1] [eNext]).2.2.2.2).map
          dropSongplayId ∧
      (((runPipeline (fun n => n) [cSong1] [eNext]).2.2.2.2).map
        (fun r => r.songplay_id)).Nodup :=
  ⟨(pipeline_deterministic_mod_id [cSong1] [eNext] (fun n => n)
      (fun n => n + 7)).2.2.2.2.1,
   (pipeline_deterministic_mod_id [cSong1] [eNext] (fun n => n)
      (fun n => n + 7)).2.2.2.2.2 (fun _ _ h => h)⟩

/-- C10: every field of every time-table row is the string rendering of
the corresponding calendar component of some input event's timestamp —
the UDF's string-to-string map is passed through unchanged. -/
theorem time_table_fields_are_strings (evs : List LogRecord) :
    ∀ row ∈ create_time_table evs, ∃ e ∈ evs,
      row.start_time = startTimeStr e.ts ∧
      row.hour = toString (tsParts e.ts).hour ∧
      row.day = toString (tsParts e.ts).day ∧
      row.week = toString (tsParts e.ts).weekOfYear ∧
      row.month = toString (tsParts e.ts).month ∧
      row.year = toString (tsParts e.ts).year ∧
      row.weekday = toString (tsParts e.ts).weekday := by
  intro row hrow
  obtain ⟨e, he, heq⟩ := List.mem_map.mp hrow
  refine ⟨e, he, ?_⟩
  subst heq
  refine ⟨rfl, ?_, ?_, ?_, ?_, ?_, ?_⟩ <;>
    simp [create_time_table, lookupField, extract_fields_from_ts, List.lookup]

/-- C10 witness: the single event with `ts = 1000` yields the row whose
fields are the decimal strings of the 1970-01-01 00:00:01 UTC
decomposition. -/
theorem time_table_fields_are_strings_witness :
    ({ start_time := "1970-01-01 00:00:01", hour := "0", day := "1",
       week := "1", month := "1", year := "1970", weekday := "3" } : TimeRow)
        ∈ create_time_table [eNext] ∧
      (∃ e ∈ [eNext],
        ({ start_time := "1970-01-01 00:00:01", hour := "0", day := "1",
           week := "1", month := "1", year := "1970",
           weekday := "3" } : TimeRow).start_time = startTimeStr e.ts ∧
        ({ start_time := "1970-01-01 00:00:01", hour := "0", day := "1",
           week := "1", month := "1", year := "1970",
           weekday := "3" } : TimeRow).hour = toString (tsParts e.ts).hour ∧
        ({ start_time := "1970-01-01 00:00:01", hour := "0", day := "1",
           week := "1", month := "1", year := "1970",
           weekday := "3" } : TimeRow).day = toString (tsParts e.ts).day ∧
        ({ start_time := "1970-01-01 00:00:01", hour := "0", day := "1",
           week := "1", month := "1", year := "1970",
           weekday := "3" } : TimeRow).week = toString (tsParts e.ts).weekOfYear ∧
        ({ start_time := "1970-01-01 00:00:01", hour := "0", day := "1",
           week := "1", month := "1", year := "1970",
           weekday := "3" } : TimeRow).month = toString (tsParts e.ts).month ∧
        ({ start_time := "1970-01-01 00:00:01", hour := "0", day := "1",
           week := "1", month := "1", year := "1970",
           weekday := "3" } : TimeRow).year = toString (tsParts e.ts).year ∧
        ({ start_time := "1970-01-01 00:00:01", hour := "0", day := "1",
           week := "1", month := "1", year := "1970",
           weekday := "3" } : TimeRow).weekday = toString (tsParts e.ts).weekday) :=
  ⟨by decide, time_table_fields_are_strings [eNext] _ (by decide)⟩

/- ### Users builder: latest-wins semantics -/

/-- C1 counterexample: two event records that tie on
`(userId, max ts)` both survive the join-back, so user `"1"` appears
in the input yet gets two rows in the users table, refuting "at most
one row per user_id". -/
theorem users_table_duplicate_on_tie :
    "1" ∈ [eTieA, eTieB].map (fun e => e.userId) ∧
      (create_users_table [eTieA, eTieB]).countP
        (fun r => r.user_id == "1") = 2 := by decide

/-- Counting rows with `user_id = u` in the join-back, key by key: a
duplicate-free key list contributes the full count of stage rows
attaining `(u, maxTsOf u)` when it contains `u`, and nothing
otherwise. -/
lemma join_countP_aux (rows : List UserStage) (u : String)
    (keys : List String) (hnd : keys.Nodup) :
    ((keys.map (fun w => (w, maxTsOf w rows))).flatMap (fun g =>
        (rows.filter (fun r => r.user_id == g.1 && r.ts == g.2)).map
          (fun r => (g, r)))).countP (fun p => p.2.user_id == u)
      = if u ∈ keys
        then rows.countP (fun r => r.user_id == u && r.ts == maxTsOf u rows)
        else 0 := by
  induction keys with
  | nil => simp
  | cons k ks ih =>
    obtain ⟨hk_nin, hnd2⟩ := List.nodup_cons.mp hnd
    simp only [List.map_cons, List.flatMap_cons, List.countP_append,
      List.countP_map, List.countP_filter, ih hnd2]
    by_cases hk : k = u
    · subst hk
      rw [if_neg hk_nin, if_pos (List.mem_cons_self k ks), Nat.add_zero]
      refine List.countP_congr (fun r _ => ?_)
      cases h : r.user_id == k <;> simp [Function.comp, h]
    · have h0 : rows.countP (fun r =>
          ((fun p : (String × Nat) × UserStage => p.2.user_id == u) ∘
            fun r => ((k, maxTsOf k rows), r)) r
          && (r.user_id == k && r.ts == maxTsOf k rows)) = 0 := by
        refine List.countP_eq_zero.mpr (fun r _ hr => ?_)
        simp only [Function.comp, Bool.and_eq_true, beq_iff_eq] at hr
        exact hk (hr.2.1.symm.trans hr.1)
      rw [h0, Nat.zero_add]
      by_cases hu : u ∈ ks
      · rw [if_pos hu, if_pos (List.mem_cons_of_mem k hu)]
      · rw [if_neg hu, if_neg (fun h =>
          (List.mem_cons.mp h).elim (fun h1 => hk h1.symm) hu)]

/-- The number of users-table rows carrying `user_id = u` equals the
number of stage rows attaining `(u, maxTsOf u)`, provided `u` occurs in
the stage. -/
lemma users_table_countP (evs : List LogRecord) (u : String)
    (hu : u ∈ (usersTableDf evs).map (fun r => r.user_id)) :
    (create_users_table evs).countP (fun r => r.user_id == u)
      = (usersTableDf evs).countP
        (fun r => r.user_id == u && r.ts == maxTsOf u (usersTableDf evs)) := by
  have h1 : (create_users_table evs).countP (fun r => r.user_id == u)
      = (usersTableJoin (usersTableDf evs)).countP
        (fun p => p.2.user_id == u) := by
    unfold create_users_table
    rw [List.countP_map]
    rfl
  rw [h1]
  unfold usersTableJoin usersMaxTsDf
  rw [join_countP_aux (usersTableDf evs) u _ (List.nodup_dedup _),
    if_pos (List.mem_dedup.mpr hu)]

/-- C1 (amended): when exactly one input record attains the maximal
`ts` of its `user_id`, the users table has exactly one row for that
`user_id`, and its fields are those of that record. -/
theorem users_latest_wins (evs : List LogRecord) (u : String)
    (e : LogRecord) (he : e ∈ evs) (hu : e.userId = u)
    (hmax : e.ts = maxTsOf u (usersTableDf evs))
    (huniq : evs.countP (fun x =>
        x.userId == u && x.ts == maxTsOf u (usersTableDf evs)) = 1) :
    (create_users_table evs).countP (fun r => r.user_id == u) = 1 ∧
      ({ user_id := u, first_name := e.firstName, last_name := e.lastName,
         gender := e.gender, level := e.level } : UserRow) ∈
        create_users_table evs := by
  have hustage : stageOf e ∈ usersTableDf evs :=
    List.mem_map_of_mem _ he
  have humem : u ∈ (usersTableDf evs).map (fun r => r.user_id) := by
    have h := List.mem_map_of_mem (fun r : UserStage => r.user_id) hustage
    simp only [stageOf] at h
    rwa [hu] at h
  constructor
  · rw [users_table_countP evs u humem]
    have : (usersTableDf evs).countP
        (fun r => r.user_id == u && r.ts == maxTsOf u (usersTableDf evs))
        = evs.countP (fun x =>
            x.userId == u && x.ts == maxTsOf u (usersTableDf evs)) := by
      unfold usersTableDf
      rw [List.countP_map]
      rfl
    rw [this, huniq]
  · have hg : (u, maxTsOf u (usersTableDf evs)) ∈
        usersMaxTsDf (usersTableDf evs) :=
      List.mem_map_of_mem _ (List.mem_dedup.mpr humem)
    have hfil : stageOf e ∈ (usersTableDf evs).filter
        (fun r => r.user_id == u && r.ts == maxTsOf u (usersTableDf evs)) := by
      rw [List.mem_filter]
      refine ⟨hustage, ?_⟩
      simp only [stageOf, Bool.and_eq_true, beq_iff_eq]
      exact ⟨hu, hmax⟩
    have hjoin : ((u, maxTsOf u (usersTableDf evs)), stageOf e)
        ∈ usersTableJoin (usersTableDf evs) :=
      List.mem_flatMap_of_mem hg (List.mem_map_of_mem _ hfil)
    have hmem := List.mem_map_of_mem (fun p : (String × Nat) × UserStage =>
      ({ user_id := p.2.user_id, first_name := p.2.first_name,
         last_name := p.2.last_name, gender := p.2.gender,
         level := p.2.level } : UserRow)) hjoin
    unfold create_users_table
    simpa [stageOf, hu] using hmem

/-- C1 witness: user `"7"` has records at `ts` 900 and 1500; the
unique maximum is `eHome`, and its profile fields make up the single
row. -/
theorem users_latest_wins_witness :
    eHome ∈ [eOld7, eHome] ∧ eHome.userId = "7" ∧
      eHome.ts = maxTsOf "7" (usersTableDf [eOld7, eHome]) ∧
      ([eOld7, eHome].countP (fun x =>
        x.userId == "7" && x.ts == maxTsOf "7" (usersTableDf [eOld7, eHome]))
        = 1) ∧
      (create_users_table [eOld7, eHome]).countP
        (fun r => r.user_id == "7") = 1 ∧
      ({ user_id := "7", first_name := eHome.firstName,
         last_name := eHome.lastName, gender := eHome.gender,
         level := eHome.level } : UserRow) ∈
        create_users_table [eOld7, eHome] :=
  ⟨by decide, by decide, by decide, by decide,
   (users_latest_wins [eOld7, eHome] "7" eHome (by decide) (by decide)
      (by decide) (by decide)).1,
   (users_latest_wins [eOld7, eHome] "7" eHome (by decide) (by decide)
      (by decide) (by decide)).2⟩

/- ### Calendar arithmetic facts for the time decomposer -/

set_option maxHeartbeats 8000000 in
/-- The year-of-era extracted by the civil-from-days algorithm is
consistent: its day-prefix fits under `doe`, leaves at most a year of
days, and stays below 400. -/
lemma yoe_facts (doe yoe : Nat) (h : doe ≤ 146096)
    (hyoe : (doe - doe / 1460 + doe / 36524 - doe / 146096) / 365 = yoe) :
    365 * yoe + yoe / 4 - yoe / 100 ≤ doe ∧
      doe - (365 * yoe + yoe / 4 - yoe / 100) ≤ 365 ∧ yoe ≤ 399 := by
  generalize hq : doe / 1460 = q at hyoe
  have hqu : q ≤ 100 := by omega
  interval_cases q <;>
    first
      | omega
      | (generalize he : doe / 36524 = e at hyoe
         have heu : e ≤ 4 := by omega
         interval_cases e <;> omega)

/-- The month-prefix extracted from a day-of-year is consistent. -/
lemma mp_facts (doy mp : Nat) (h : doy ≤ 365)
    (hmp : (5 * doy + 2) / 153 = mp) :
    (153 * mp + 2) / 5 ≤ doy ∧ mp ≤ 11 := by
  omega

set_option maxHeartbeats 1000000 in
/-- The day-of-month of the civil decomposition is between 1 and 31. -/
lemma civilFromDays_day_range (z : Nat) :
    1 ≤ (civilFromDays z).2.2 ∧ (civilFromDays z).2.2 ≤ 31 := by
  simp only [civilFromDays]
  omega

set_option maxHeartbeats 1000000 in
/-- The month of the civil decomposition is between 1 and 12. -/
lemma civilFromDays_month_range (z : Nat) :
    1 ≤ (civilFromDays z).2.1 ∧ (civilFromDays z).2.1 ≤ 12 := by
  simp only [civilFromDays]
  split <;> omega

/-- Decomposition of `civilFromDays` into its intermediate values: the
era/day-of-era split of the shifted day count, the extracted year of
era, day of year and month prefix, and the three output components
expressed in terms of them. -/
lemma civilFromDays_parts (z : Nat) :
    ∃ era doe yoe doy mp,
      146097 * era + doe = z + 719468 ∧ doe ≤ 146096 ∧
      (doe - doe / 1460 + doe / 36524 - doe / 146096) / 365 = yoe ∧
      doe - (365 * yoe + yoe / 4 - yoe / 100) = doy ∧
      (5 * doy + 2) / 153 = mp ∧
      (civilFromDays z).1
        = (if (if mp < 10 then mp + 3 else mp - 9) ≤ 2
            then yoe + era * 400 + 1 else yoe + era * 400) ∧
      (civilFromDays z).2.1 = (if mp < 10 then mp + 3 else mp - 9) ∧
      (civilFromDays z).2.2 = doy - (153 * mp + 2) / 5 + 1 := by
  refine ⟨(z + 719468) / 146097, (z + 719468) % 146097, _, _, _,
    Nat.div_add_mod _ _, by omega, rfl, rfl, rfl, rfl, rfl, rfl⟩

set_option maxHeartbeats 1000000 in
/-- Exact invertibility of the civil decomposition: converting the
produced (year, month, day) back with the canonical `daysFromCivil`
recovers the epoch day. -/
lemma civilFromDays_roundTrip (z : Nat) :
    daysFromCivil (civilFromDays z).1 (civilFromDays z).2.1
      (civilFromDays z).2.2 = z := by
  obtain ⟨era, doe, yoe, doy, mp, hzdm, hdoele, hyoe, hdoy, hmp, hC1, hC2, hC3⟩ :=
    civilFromDays_parts z
  obtain ⟨hy1, hy2, hy3⟩ := yoe_facts doe yoe hdoele hyoe
  rw [hdoy] at hy2
  obtain ⟨hm1, hm2⟩ := mp_facts doy mp hy2 hmp
  rw [hC1, hC2, hC3]
  have h400a : (yoe + era * 400) / 400 = era := by omega
  have h400b : (yoe + era * 400) % 400 = yoe := by omega
  by_cases hmp10 : mp < 10
  · rw [if_pos hmp10, if_neg (by omega : ¬(mp + 3 ≤ 2))]
    simp only [daysFromCivil]
    rw [if_neg (by omega : ¬(mp + 3 ≤ 2)), if_pos (by omega : 2 < mp + 3),
      Nat.sub_zero, Nat.add_sub_cancel, h400a, h400b]
    omega
  · rw [if_neg hmp10, if_pos (by omega : mp - 9 ≤ 2)]
    simp only [daysFromCivil]
    rw [if_pos (by omega : mp - 9 ≤ 2), if_neg (by omega : ¬(2 < mp - 9)),
      Nat.add_sub_cancel, h400a, h400b,
      (by omega : mp - 9 + 9 = mp)]
    omega

set_option maxHeartbeats 1000000 in
/-- Every epoch day decomposes to a year at or after 1970. -/
lemma civilFromDays_year_lb (z : Nat) : 1970 ≤ (civilFromDays z).1 := by
  obtain ⟨era, doe, yoe, doy, mp, hzdm, hdoele, hyoe, hdoy, hmp, hC1, hC2, hC3⟩ :=
    civilFromDays_parts z
  obtain ⟨hy1, hy2, hy3⟩ := yoe_facts doe yoe hdoele hyoe
  rw [hdoy] at hy2
  obtain ⟨hm1, hm2⟩ := mp_facts doy mp hy2 hmp
  rw [hC1]
  rcases Nat.lt_or_ge era 5 with h5 | h5 <;> by_cases hmp10 : mp < 10
  · rw [if_pos hmp10, if_neg (by omega : ¬(mp + 3 ≤ 2))]
    omega
  · rw [if_neg hmp10, if_pos (by omega : mp - 9 ≤ 2)]
    omega
  · rw [if_pos hmp10, if_neg (by omega : ¬(mp + 3 ≤ 2))]
    omega
  · rw [if_neg hmp10, if_pos (by omega : mp - 9 ≤ 2)]
    omega

/-- The 1-based day of year determined by a valid month and day is
between 1 and 366. -/
lemma daysBeforeMonth_add_range (leap : Bool) (m d : Nat) (hm1 : 1 ≤ m)
    (hm2 : m ≤ 12) (hd1 : 1 ≤ d) (hd2 : d ≤ 31) :
    1 ≤ daysBeforeMonth leap m + d ∧ daysBeforeMonth leap m + d ≤ 366 := by
  interval_cases m <;> cases leap <;> simp [daysBeforeMonth] <;> omega

/-- The ISO week count of any year is 52 or 53. -/
lemma isoWeekCount_cases (y : Nat) :
    isoWeekCount y = 52 ∨ isoWeekCount y = 53 := by
  simp only [isoWeekCount]
  split
  · exact Or.inr rfl
  · exact Or.inl rfl

/-- The ISO week number of a valid day-of-year/weekday pair is between
1 and 53. -/
lemma isoWeekOfYear_range (y doy1 wd1 : Nat) (h1 : 1 ≤ doy1)
    (h2 : doy1 ≤ 366) (h3 : 1 ≤ wd1) (h4 : wd1 ≤ 7) :
    1 ≤ isoWeekOfYear y doy1 wd1 ∧ isoWeekOfYear y doy1 wd1 ≤ 53 := by
  simp only [isoWeekOfYear]
  have hy := isoWeekCount_cases y
  have hy1 := isoWeekCount_cases (y - 1)
  split
  · omega
  · split <;> omega

/-- C5: for every epoch-millisecond timestamp the decomposition is the
canonical UTC calendar decomposition — hour in 0–23 (and equal to the
canonical hour of day), day in 1–31, ISO week in 1–53, month in 1–12,
year at least 1970, weekday in 0–6 — and converting (year, month, day)
back with the canonical Gregorian `daysFromCivil` recovers the epoch
day exactly; at the fixed input 1541990795796 ms the result is
2018-11-12 02:46:35.796 UTC, ISO week 46, Monday (= 0), and at the ISO
year boundary 1577664000000 ms it is 2019-12-30, week 1, Monday. -/
theorem time_decomposer_canonical :
    (∀ ts : Nat,
      (tsParts ts).hour ≤ 23 ∧
      (tsParts ts).hour = ts / 3600000 % 24 ∧
      1 ≤ (tsParts ts).day ∧ (tsParts ts).day ≤ 31 ∧
      1 ≤ (tsParts ts).month ∧ (tsParts ts).month ≤ 12 ∧
      1970 ≤ (tsParts ts).year ∧
      1 ≤ (tsParts ts).weekOfYear ∧ (tsParts ts).weekOfYear ≤ 53 ∧
      (tsParts ts).weekday ≤ 6 ∧
      daysFromCivil (tsParts ts).year (tsParts ts).month (tsParts ts).day
        = ts / 86400000) ∧
    tsParts 1541990795796 = ⟨2018, 11, 12, 2, 46, 35, 796, 46, 0⟩ ∧
    tsParts 1577664000000 = ⟨2019, 12, 30, 0, 0, 0, 0, 1, 0⟩ := by
  refine ⟨fun ts => ?_, rfl, rfl⟩
  obtain ⟨hd1, hd2⟩ := civilFromDays_day_range (ts / 86400000)
  obtain ⟨hm1, hm2⟩ := civilFromDays_month_range (ts / 86400000)
  have hylb := civilFromDays_year_lb (ts / 86400000)
  have hrt := civilFromDays_roundTrip (ts / 86400000)
  obtain ⟨hdy1, hdy2⟩ := daysBeforeMonth_add_range
    (isLeapYear (civilFromDays (ts / 86400000)).1)
    (civilFromDays (ts / 86400000)).2.1 (civilFromDays (ts / 86400000)).2.2
    hm1 hm2 hd1 hd2
  have hwd : weekdayFromDays (ts / 86400000) ≤ 6 := by
    simp only [weekdayFromDays]
    omega
  obtain ⟨hw1, hw2⟩ := isoWeekOfYear_range (civilFromDays (ts / 86400000)).1
    (daysBeforeMonth (isLeapYear (civilFromDays (ts / 86400000)).1)
        (civilFromDays (ts / 86400000)).2.1 + (civilFromDays (ts / 86400000)).2.2)
    (weekdayFromDays (ts / 86400000) + 1) hdy1 hdy2 (by omega) (by omega)
  simp only [tsParts]
  exact ⟨by omega, by omega, hd1, hd2, hm1, hm2, hylb, hw1, hw2, hwd, hrt⟩
